import Mathlib

/-!
Shallow embedding of `app/tool/email_sender.py` (the `EmailSender` tool of
this repository) together with its configuration resolver.

Modelling conventions:
* Python attribute values read from the dynamic application config are
  modelled by `PyVal`; an absent attribute is `Option.none` (reading it
  raises `AttributeError`, which `_get_email_config` catches).
* Pydantic field validation (lax mode of pydantic v2, which the repository
  uses) is modelled by `validateStr` / `validateInt` / `validateBool`; a
  failing validation raises `ValidationError`, modelled by `Except.error`.
  The exact coercion table of pydantic is approximated: a string field
  accepts exactly strings, an int field accepts ints and integer-shaped
  strings, a bool field accepts bools, 0/1 and the usual truthy words.
  The aggregated `ValidationError` text is modelled by a fixed string
  (never interpolating the rejected values).
* Functions that can raise a Python exception past their boundary return
  `Except String _`; `Except.error e` is an escaping exception whose
  `str()` is `e`.
* The SMTP transport (`smtplib`) is an external effect; its behaviour on
  one call is an oracle `Behavior`: for each protocol step, `none` means
  the step succeeds, `some e` means the step raises an exception with
  text `e`.  `buildErr` is the analogous oracle for the message-building
  and recipient-computation code between the config check and the
  dispatch call (in Python this code can raise, e.g. `MIMEText` on a body
  with a lone surrogate, or `", ".join(cc)` on a non-string cc element).
* The actions performed on the SMTP connection are recorded as a trace
  (`List SmtpAction`); `SmtpAction.sendmail` carries the structured
  message standing for `msg.as_string()`.
-/

/-- A dynamically-typed Python attribute value as found in the app config. -/
inductive PyVal where
  | vStr (s : String)
  | vInt (n : Int)
  | vBool (b : Bool)
  deriving DecidableEq, Repr

/-- The raw `config.email_config` section: each field is an attribute that
may be absent (`none`), and whose value is dynamically typed. -/
structure RawEmailSection where
  smtp_server : Option PyVal
  smtp_port : Option PyVal
  smtp_username : Option PyVal
  smtp_password : Option PyVal
  use_tls : Option PyVal
  deriving DecidableEq, Repr

/-- `EmailConfig` (pydantic model): validated email configuration settings. -/
structure EmailConfig where
  smtp_server : String
  smtp_port : Int
  smtp_username : String
  smtp_password : String
  use_tls : Bool
  deriving DecidableEq, Repr

/-- Pydantic (v2, lax) validation of a `str` field: only strings pass. -/
def validateStr : PyVal → Except String String
  | PyVal.vStr s => Except.ok s
  | _ => Except.error "Input should be a valid string"

/-- Pydantic (v2, lax) validation of an `int` field: ints pass, strings are
coerced when they spell an integer, anything else fails. -/
def validateInt : PyVal → Except String Int
  | PyVal.vInt n => Except.ok n
  | PyVal.vStr s =>
    match s.toInt? with
    | some n => Except.ok n
    | none => Except.error "Input should be a valid integer"
  | _ => Except.error "Input should be a valid integer"

/-- Pydantic (v2, lax) validation of a `bool` field. -/
def validateBool : PyVal → Except String Bool
  | PyVal.vBool b => Except.ok b
  | PyVal.vInt n =>
    if n = 0 then Except.ok false
    else if n = 1 then Except.ok true
    else Except.error "Input should be a valid boolean"
  | PyVal.vStr s =>
    if s ∈ ["true", "True", "yes", "on", "1"] then Except.ok true
    else if s ∈ ["false", "False", "no", "off", "0"] then Except.ok false
    else Except.error "Input should be a valid boolean"

/-- `EmailSender._get_email_config`.  `cfg = none` models
`hasattr(config, 'email_config')` being false.  An absent required field
raises `AttributeError`, which the `except AttributeError` clause catches,
returning `None`.  Constructing the pydantic `EmailConfig` then validates
the five values; a `ValidationError` is NOT an `AttributeError`, so it
escapes this function (modelled by `Except.error`). -/
def get_email_config (cfg : Option RawEmailSection) :
    Except String (Option EmailConfig) :=
  match cfg with
  | none => Except.ok none
  | some sec =>
    match sec.smtp_server, sec.smtp_port, sec.smtp_username, sec.smtp_password with
    | some sv, some pv, some uv, some wv =>
      match validateStr sv, validateInt pv, validateStr uv, validateStr wv,
          validateBool (sec.use_tls.getD (PyVal.vBool true)) with
      | Except.ok s, Except.ok p, Except.ok u, Except.ok w, Except.ok t =>
        Except.ok (some ⟨s, p, u, w, t⟩)
      | _, _, _, _, _ =>
        Except.error "validation error for EmailConfig"
    | _, _, _, _ => Except.ok none

/-- `EmailResult` (extends `ToolResult`, which contributes the `output` and
`error` fields, both defaulting to `None`). -/
structure EmailResult where
  recipient : String
  subject : String
  message_sent : Bool
  error : Option String := none
  output : Option String := none
  deriving DecidableEq, Repr

/-- Python truthiness of the optional `error` string: `None` and `""` are
falsy, every other string is truthy. -/
def errTruthy : Option String → Bool
  | none => false
  | some s => !s.isEmpty

/-- `EmailResult.populate_output` (a pydantic `model_validator` that runs
after construction): when `error` is falsy, derive `output` from the
recipient, subject and sent flag. -/
def populate_output (r : EmailResult) : EmailResult :=
  if errTruthy r.error then r
  else
    { r with output := some ("Email to " ++ r.recipient ++ " with subject '"
        ++ r.subject ++ "' was "
        ++ (if r.message_sent then "successfully" else "failed to be")
        ++ " sent.") }

/-- Constructing an `EmailResult(recipient=..., subject=..., message_sent=...,
error=...)`: pydantic runs `populate_output` as part of construction. -/
def mkEmailResult (recipient subject : String) (sent : Bool)
    (err : Option String) : EmailResult :=
  populate_output
    { recipient := recipient, subject := subject, message_sent := sent,
      error := err }

/-- The constructed MIME message: ordered headers and attached parts, each
part a (content subtype, payload) pair. -/
structure Message where
  headers : List (String × String)
  parts : List (String × String)
  deriving DecidableEq, Repr

/-- First header with the given name (`msg['Name']`). -/
def lookupHeader : List (String × String) → String → Option String
  | [], _ => none
  | h :: t, nm => if h.1 == nm then some h.2 else lookupHeader t nm

/-- `msg[name]` on the constructed message (all look-ups in the source use
the exact capitalisation the headers were set with). -/
def getHeader (m : Message) (nm : String) : Option String :=
  lookupHeader m.headers nm

/-- Python truthiness of an optional list argument: `None` and `[]` are
falsy (`if cc:`). -/
def optTruthy : Option (List String) → Bool
  | none => false
  | some l => !l.isEmpty

/-- The sequence an optional list argument denotes. -/
def optList : Option (List String) → List String
  | none => []
  | some l => l

/-- Message construction in `EmailSender.execute` (lines 114-124): From, To
and Subject headers, a Cc header only when `cc` is truthy, and one body
part whose content subtype is `"html"` exactly when `is_html` is true.
`bcc` is not an input of this step. -/
def buildMessage (ec : EmailConfig) (toAddr subject body : String)
    (cc : Option (List String)) (is_html : Bool) : Message :=
  { headers := [("From", ec.smtp_username), ("To", toAddr), ("Subject", subject)]
      ++ (if optTruthy cc then [("Cc", String.intercalate ", " (optList cc))] else []),
    parts := [((if is_html then "html" else "plain"), body)] }

/-- Recipient-list computation in `EmailSender.execute` (lines 126-131):
`recipients = [to]`, extended by `cc` and then `bcc` when truthy. -/
def buildRecipients (toAddr : String) (cc bcc : Option (List String)) :
    List String :=
  [toAddr] ++ (if optTruthy cc then optList cc else [])
      ++ (if optTruthy bcc then optList bcc else [])

/-- One action performed on the SMTP connection. -/
inductive SmtpAction where
  | connect (server : String) (port : Int)
  | starttls
  | login (user password : String)
  | sendmail (sender : String) (recipients : List String) (message : Message)
  | quit
  deriving DecidableEq, Repr

/-- Oracle for everything outside this utility on one call: whether the
message-building code raises, and whether each SMTP protocol step raises
(`none` = succeeds, `some e` = raises an exception with text `e`). -/
structure Behavior where
  buildErr : Option String := none
  connectErr : Option String := none
  starttlsErr : Option String := none
  loginErr : Option String := none
  sendmailErr : Option String := none
  deriving DecidableEq, Repr

/-- The inner `_send` closure of `_send_email_async`: connect, STARTTLS only
when `use_tls`, login, sendmail; the `with` block quits the connection on
every path on which it was established.  Returns the outcome together with
the trace of actions attempted. -/
def runSend (beh : Behavior) (ec : EmailConfig) (msg : Message)
    (recipients : List String) : Except String Unit × List SmtpAction :=
  match beh.connectErr with
  | some e => (Except.error e, [SmtpAction.connect ec.smtp_server ec.smtp_port])
  | none =>
    let conn := SmtpAction.connect ec.smtp_server ec.smtp_port
    let tls : List SmtpAction := if ec.use_tls then [SmtpAction.starttls] else []
    match (if ec.use_tls then beh.starttlsErr else none) with
    | some e => (Except.error e, conn :: (tls ++ [SmtpAction.quit]))
    | none =>
      let lg := SmtpAction.login ec.smtp_username ec.smtp_password
      match beh.loginErr with
      | some e => (Except.error e, conn :: (tls ++ [lg, SmtpAction.quit]))
      | none =>
        let sm := SmtpAction.sendmail ec.smtp_username recipients msg
        match beh.sendmailErr with
        | some e => (Except.error e, conn :: (tls ++ [lg, sm, SmtpAction.quit]))
        | none => (Except.ok (), conn :: (tls ++ [lg, sm, SmtpAction.quit]))

/-- `EmailSender._send_email_async`: run `_send` in the executor; on success
build a success `EmailResult` from `msg['To']` and `msg['Subject']`, on any
exception catch it and build a failure result with the
`"Error sending email: "` text.  Never raises. -/
def send_email_async (beh : Behavior) (ec : EmailConfig) (msg : Message)
    (recipients : List String) : EmailResult × List SmtpAction :=
  match runSend beh ec msg recipients with
  | (Except.ok _, tr) =>
    (mkEmailResult ((getHeader msg "To").getD "") ((getHeader msg "Subject").getD "")
      true none, tr)
  | (Except.error e, tr) =>
    (mkEmailResult ((getHeader msg "To").getD "") ((getHeader msg "Subject").getD "")
      false (some ("Error sending email: " ++ e)), tr)

/-- `EmailSender.execute`.  The value is `Except.error e` when the call
raises a Python exception past `execute`'s boundary, and
`Except.ok (result, trace)` when it returns, paired with the trace of SMTP
actions performed during the call (empty when the transport was never
invoked).

Faithful control flow: the config check first (a `ValidationError` escaping
`_get_email_config` also escapes `execute`, which calls it outside any
`try`); then message building and recipient computation, which are NOT
inside the `try` block either — if that code raises, the exception
propagates; only the dispatch call `_send_email_async` is inside the
`try/except`, and since `_send_email_async` already catches every
exception internally, the outer handler (error text
`"Failed to send email: "`) is unreachable. -/
def execute (cfg : Option RawEmailSection) (beh : Behavior)
    (toAddr subject body : String) (cc bcc : Option (List String))
    (is_html : Bool) : Except String (EmailResult × List SmtpAction) :=
  match get_email_config cfg with
  | Except.error e => Except.error e
  | Except.ok none =>
    Except.ok (mkEmailResult toAddr subject false
      (some "Email configuration is missing or incomplete in app config."), [])
  | Except.ok (some ec) =>
    match beh.buildErr with
    | some e => Except.error e
    | none =>
      let msg := buildMessage ec toAddr subject body cc is_html
      let recipients := buildRecipients toAddr cc bcc
      Except.ok (send_email_async beh ec msg recipients)

/-- The `EmailResult` component of an `execute` outcome (discarding the
recorded transport trace). -/
def resultOf (r : Except String (EmailResult × List SmtpAction)) :
    Except String EmailResult :=
  r.map Prod.fst

/-- The messages handed to the transport's `sendmail` in a trace. -/
def sentMessages : List SmtpAction → List Message
  | [] => []
  | SmtpAction.sendmail _ _ m :: tr => m :: sentMessages tr
  | _ :: tr => sentMessages tr

/-- Index of the first action satisfying `p`, if any. -/
def firstIdx (p : SmtpAction → Bool) : List SmtpAction → Option Nat
  | [] => none
  | a :: tr => if p a then some 0 else (firstIdx p tr).map (· + 1)

/-- Recognisers for the protocol-step kinds. -/
def isStarttlsA : SmtpAction → Bool
  | SmtpAction.starttls => true
  | _ => false

def isLoginA : SmtpAction → Bool
  | SmtpAction.login _ _ => true
  | _ => false

def isSendmailA : SmtpAction → Bool
  | SmtpAction.sendmail _ _ _ => true
  | _ => false

/-- Bool test: does `sub` occur as a contiguous substring of `s`? -/
def charsPrefixOf : List Char → List Char → Bool
  | [], _ => true
  | _ :: _, [] => false
  | a :: as, b :: bs => a == b && charsPrefixOf as bs

def charsInfixOf (sub : List Char) : List Char → Bool
  | [] => charsPrefixOf sub []
  | b :: bs => charsPrefixOf sub (b :: bs) || charsInfixOf sub bs

def strHasSubstr (s sub : String) : Bool :=
  charsInfixOf sub.data s.data

/-- Does the address occur (as a substring) in any header value of the
constructed message? -/
def appearsInAnyHeader (addr : String) (m : Message) : Bool :=
  m.headers.any (fun h => strHasSubstr h.2 addr)

/-- The SMTP actions a finished `execute` call performed (none when the call
raised). -/
def traceOf : Except String (EmailResult × List SmtpAction) → List SmtpAction
  | Except.ok (_, tr) => tr
  | Except.error _ => []

/-- The transport-dispatched messages of a finished `execute` call. -/
def sentMessagesOf (r : Except String (EmailResult × List SmtpAction)) :
    List Message :=
  sentMessages (traceOf r)

/-- A complete, well-typed `email_config` section (the shape the repository's
`config.toml` example documents). -/
def secGood : RawEmailSection :=
  { smtp_server := some (PyVal.vStr "smtp.example.com"),
    smtp_port := some (PyVal.vInt 587),
    smtp_username := some (PyVal.vStr "user@example.com"),
    smtp_password := some (PyVal.vStr "hunter2"),
    use_tls := some (PyVal.vBool true) }

/-- The `EmailConfig` that `secGood` resolves to. -/
def ecGood : EmailConfig :=
  { smtp_server := "smtp.example.com", smtp_port := 587,
    smtp_username := "user@example.com", smtp_password := "hunter2",
    use_tls := true }

/-- A transport on which every step succeeds and message building raises
nothing. -/
def behOk : Behavior := {}

theorem mkEmailResult_recipient (a b : String) (s : Bool) (e : Option String) :
    (mkEmailResult a b s e).recipient = a := by
  unfold mkEmailResult populate_output; split <;> rfl

theorem mkEmailResult_subject (a b : String) (s : Bool) (e : Option String) :
    (mkEmailResult a b s e).subject = b := by
  unfold mkEmailResult populate_output; split <;> rfl

theorem mkEmailResult_sent (a b : String) (s : Bool) (e : Option String) :
    (mkEmailResult a b s e).message_sent = s := by
  unfold mkEmailResult populate_output; split <;> rfl

theorem mkEmailResult_error (a b : String) (s : Bool) (e : Option String) :
    (mkEmailResult a b s e).error = e := by
  unfold mkEmailResult populate_output; split <;> rfl

theorem mkEmailResult_output_of_truthy_error (a b : String) (s : Bool)
    (e : Option String) (he : errTruthy e = true) :
    (mkEmailResult a b s e).output = none := by
  unfold mkEmailResult populate_output
  rw [if_pos he]

theorem append_left_ne_empty (p e : String) (hp : p ≠ "") : p ++ e ≠ "" := by
  intro h
  apply hp
  have hd : p.data ++ e.data = [] := by
    have := congrArg String.data h
    rwa [String.data_append] at this
  rcases List.append_eq_nil.mp hd with ⟨h1, -⟩
  cases p
  simp_all

theorem errTruthy_of_ne_empty (s : String) (h : s ≠ "") :
    errTruthy (some s) = true := by
  have hs : s.isEmpty = false := by
    rw [← Bool.not_eq_true, String.isEmpty_iff]
    exact h
  simp [errTruthy, hs]

/-- The trace recorded by `_send_email_async` is exactly the trace of the
inner `_send`. -/
theorem send_email_async_trace (beh : Behavior) (ec : EmailConfig)
    (msg : Message) (recipients : List String) :
    (send_email_async beh ec msg recipients).2 =
      (runSend beh ec msg recipients).2 := by
  unfold send_email_async
  rcases h : runSend beh ec msg recipients with ⟨res, tr⟩
  cases res <;> rfl

/-- Field values of the result built by `_send_email_async`. -/
theorem send_email_async_fst (beh : Behavior) (ec : EmailConfig)
    (msg : Message) (recipients : List String) :
    (send_email_async beh ec msg recipients).1 =
      (match (runSend beh ec msg recipients).1 with
       | Except.ok _ => mkEmailResult ((getHeader msg "To").getD "")
           ((getHeader msg "Subject").getD "") true none
       | Except.error e => mkEmailResult ((getHeader msg "To").getD "")
           ((getHeader msg "Subject").getD "") false
           (some ("Error sending email: " ++ e))) := by
  unfold send_email_async
  rcases h : runSend beh ec msg recipients with ⟨res, tr⟩
  cases res <;> rfl

theorem getHeader_buildMessage_To (ec : EmailConfig)
    (toAddr subject body : String) (cc : Option (List String))
    (is_html : Bool) :
    getHeader (buildMessage ec toAddr subject body cc is_html) "To" =
      some toAddr := by
  simp [getHeader, buildMessage, lookupHeader]

theorem getHeader_buildMessage_Subject (ec : EmailConfig)
    (toAddr subject body : String) (cc : Option (List String))
    (is_html : Bool) :
    getHeader (buildMessage ec toAddr subject body cc is_html) "Subject" =
      some subject := by
  simp [getHeader, buildMessage, lookupHeader]

/-- Every `sendmail` action in a `_send` trace carries exactly the envelope
sender, recipient list and message that were handed to the dispatcher. -/
theorem runSend_sendmail_mem (beh : Behavior) (ec : EmailConfig)
    (msg : Message) (recipients : List String)
    (sender : String) (rl : List String) (m : Message)
    (h : SmtpAction.sendmail sender rl m ∈ (runSend beh ec msg recipients).2) :
    sender = ec.smtp_username ∧ rl = recipients ∧ m = msg := by
  unfold runSend at h
  rcases h1 : beh.connectErr with - | e1 <;> rw [h1] at h
  · rcases htls : ec.use_tls with - | - <;> rw [htls] at h
    · rcases h3 : beh.loginErr with - | e3 <;> rw [h3] at h
      · rcases h4 : beh.sendmailErr with - | e4 <;> rw [h4] at h <;>
          simp_all
      · simp_all
    · rcases h2 : beh.starttlsErr with - | e2 <;> rw [h2] at h
      · rcases h3 : beh.loginErr with - | e3 <;> rw [h3] at h
        · rcases h4 : beh.sendmailErr with - | e4 <;> rw [h4] at h <;>
            simp_all
        · simp_all
      · simp_all
  · simp_all

/-- The recipient-list argument does not influence which messages a `_send`
trace dispatches. -/
theorem sentMessages_runSend_recipients (beh : Behavior) (ec : EmailConfig)
    (msg : Message) (r1 r2 : List String) :
    sentMessages ((runSend beh ec msg r1).2) =
      sentMessages ((runSend beh ec msg r2).2) := by
  rcases h1 : beh.connectErr with - | e1 <;>
  rcases htls : ec.use_tls with - | - <;>
  rcases h2 : beh.starttlsErr with - | e2 <;>
  rcases h3 : beh.loginErr with - | e3 <;>
  rcases h4 : beh.sendmailErr with - | e4 <;>
  simp [runSend, h1, htls, h2, h3, h4, sentMessages]

/-- Claim C2: when configuration resolution yields no `EmailConfig`,
`execute` immediately returns a failure result whose error string is the
fixed configuration message, and the SMTP transport is never invoked: the
recorded transport trace of the call is empty. -/
theorem execute_config_failure_no_transport
    (cfg : Option RawEmailSection) (beh : Behavior)
    (toAddr subject body : String) (cc bcc : Option (List String))
    (is_html : Bool) (h : get_email_config cfg = Except.ok none) :
    execute cfg beh toAddr subject body cc bcc is_html =
      Except.ok (mkEmailResult toAddr subject false
        (some "Email configuration is missing or incomplete in app config."), []) ∧
    (mkEmailResult toAddr subject false
        (some "Email configuration is missing or incomplete in app config.")).message_sent
      = false ∧
    (mkEmailResult toAddr subject false
        (some "Email configuration is missing or incomplete in app config.")).error
      = some "Email configuration is missing or incomplete in app config." ∧
    "Email configuration is missing or incomplete in app config." ≠ "" := by
  refine ⟨?_, mkEmailResult_sent _ _ _ _, mkEmailResult_error _ _ _ _, by decide⟩
  simp [execute, h]

/-- Witness for C2: a process configuration with no `email_config` section. -/
theorem execute_config_failure_no_transport_witness :
    execute none behOk "a@x.com" "Hi" "hello" none none false =
      Except.ok (mkEmailResult "a@x.com" "Hi" false
        (some "Email configuration is missing or incomplete in app config."), []) :=
  (execute_config_failure_no_transport none behOk "a@x.com" "Hi" "hello"
    none none false rfl).1

/-- Claim C9: on every branch of `execute` that returns (configuration
failure, transport success, transport failure), the returned result's
`recipient` field equals the `to` argument and its `subject` field equals
the `subject` argument of that call. -/
theorem execute_result_preserves_recipient_subject
    (cfg : Option RawEmailSection) (beh : Behavior)
    (toAddr subject body : String) (cc bcc : Option (List String))
    (is_html : Bool) (r : EmailResult) (tr : List SmtpAction)
    (h : execute cfg beh toAddr subject body cc bcc is_html = Except.ok (r, tr)) :
    r.recipient = toAddr ∧ r.subject = subject := by
  unfold execute at h
  rcases hc : get_email_config cfg with e | (- | ec) <;> rw [hc] at h
  · exact Except.noConfusion h
  · rw [Except.ok.injEq, Prod.mk.injEq] at h
    obtain ⟨hr, -⟩ := h
    rw [← hr]
    exact ⟨mkEmailResult_recipient _ _ _ _, mkEmailResult_subject _ _ _ _⟩
  · rcases hb : beh.buildErr with - | e <;> rw [hb] at h
    · rw [Except.ok.injEq] at h
      have hr : (send_email_async beh ec
          (buildMessage ec toAddr subject body cc is_html)
          (buildRecipients toAddr cc bcc)).1 = r := by rw [h]
      rw [send_email_async_fst] at hr
      rw [← hr]
      rcases (runSend beh ec
          (buildMessage ec toAddr subject body cc is_html)
          (buildRecipients toAddr cc bcc)).1 with e2 | - <;>
        simp [mkEmailResult_recipient, mkEmailResult_subject,
          getHeader_buildMessage_To, getHeader_buildMessage_Subject]
    · exact Except.noConfusion h

/-- Witness for C9: the fully successful concrete call. -/
theorem execute_result_preserves_recipient_subject_witness :
    (mkEmailResult "a@x.com" "Hi" true none).recipient = "a@x.com" ∧
    (mkEmailResult "a@x.com" "Hi" true none).subject = "Hi" :=
  execute_result_preserves_recipient_subject (some secGood) behOk
    "a@x.com" "Hi" "hello" none none false
    (mkEmailResult "a@x.com" "Hi" true none)
    [SmtpAction.connect "smtp.example.com" 587, SmtpAction.starttls,
     SmtpAction.login "user@example.com" "hunter2",
     SmtpAction.sendmail "user@example.com" ["a@x.com"]
       { headers := [("From", "user@example.com"), ("To", "a@x.com"),
           ("Subject", "Hi")],
         parts := [("plain", "hello")] },
     SmtpAction.quit] rfl

/-- Claim C10: passing `cc = []` is equivalent to omitting `cc` (`None`),
and likewise for `bcc`: the whole outcome of `execute` (result and
transport trace) is identical, no Cc header is added, and the transport
recipient list is `[to] ++ bcc`. -/
theorem execute_empty_cc_bcc_equiv_none
    (cfg : Option RawEmailSection) (beh : Behavior) (ec : EmailConfig)
    (toAddr subject body : String) (cc bcc : Option (List String))
    (is_html : Bool) :
    execute cfg beh toAddr subject body (some []) bcc is_html =
      execute cfg beh toAddr subject body none bcc is_html ∧
    execute cfg beh toAddr subject body cc (some []) is_html =
      execute cfg beh toAddr subject body cc none is_html ∧
    getHeader (buildMessage ec toAddr subject body (some []) is_html) "Cc" = none ∧
    getHeader (buildMessage ec toAddr subject body none is_html) "Cc" = none ∧
    buildRecipients toAddr (some []) bcc = [toAddr] ++ optList bcc ∧
    buildRecipients toAddr none bcc = [toAddr] ++ optList bcc := by
  refine ⟨?_, ?_, ?_, ?_, ?_, ?_⟩
  · rcases hc : get_email_config cfg with e | (- | ec2) <;>
      simp [execute, hc, buildMessage, buildRecipients, optTruthy, optList]
  · rcases hc : get_email_config cfg with e | (- | ec2) <;>
      simp [execute, hc, buildMessage, buildRecipients, optTruthy, optList]
  · simp [getHeader, buildMessage, optTruthy, lookupHeader]
  · simp [getHeader, buildMessage, optTruthy, lookupHeader]
  · rcases bcc with - | l
    · simp [buildRecipients, optTruthy, optList]
    · rcases l with - | ⟨a, t⟩ <;> simp [buildRecipients, optTruthy, optList]
  · rcases bcc with - | l
    · simp [buildRecipients, optTruthy, optList]
    · rcases l with - | ⟨a, t⟩ <;> simp [buildRecipients, optTruthy, optList]

theorem optTruthy_select (x : Option (List String)) :
    (if optTruthy x then optList x else []) = optList x := by
  rcases x with - | l
  · rfl
  · rcases l with - | ⟨a, t⟩ <;> simp [optTruthy, optList]

theorem buildRecipients_eq (toAddr : String) (cc bcc : Option (List String)) :
    buildRecipients toAddr cc bcc = [toAddr] ++ optList cc ++ optList bcc := by
  rw [buildRecipients, optTruthy_select, optTruthy_select, List.append_assoc]

theorem getHeader_buildMessage_Cc (ec : EmailConfig)
    (toAddr subject body : String) (cc : Option (List String))
    (is_html : Bool) :
    getHeader (buildMessage ec toAddr subject body cc is_html) "Cc" =
      (if optList cc = [] then none
       else some (String.intercalate ", " (optList cc))) := by
  rcases cc with - | l
  · simp [getHeader, buildMessage, optTruthy, optList, lookupHeader]
  · rcases l with - | ⟨a, t⟩ <;>
      simp [getHeader, buildMessage, optTruthy, optList, lookupHeader]

theorem buildMessage_parts (ec : EmailConfig)
    (toAddr subject body : String) (cc : Option (List String))
    (is_html : Bool) :
    (buildMessage ec toAddr subject body cc is_html).parts =
      [((if is_html then "html" else "plain"), body)] := rfl

/-- Claim C5: every `sendmail` dispatched by `execute` carries the recipient
list `[to] ++ cc ++ bcc` (in order) and a message whose Cc header is present
exactly when `cc` is non-empty (and is then the comma-plus-space join of
`cc`) and whose content subtype is `plain`/`html` according to `is_html`;
in particular, the concrete scenario of the spec produces recipients
`["a@x.com", "b@x.com", "c@x.com"]`, Cc header `"b@x.com"` and a plain
body. -/
theorem recipients_cc_header_content_type
    (cfg : Option RawEmailSection) (beh : Behavior)
    (toAddr subject body : String) (cc bcc : Option (List String))
    (is_html : Bool) (r : EmailResult) (tr : List SmtpAction)
    (sender : String) (rl : List String) (m : Message)
    (h : execute cfg beh toAddr subject body cc bcc is_html = Except.ok (r, tr))
    (hm : SmtpAction.sendmail sender rl m ∈ tr) :
    rl = [toAddr] ++ optList cc ++ optList bcc ∧
    getHeader m "Cc" = (if optList cc = [] then none
      else some (String.intercalate ", " (optList cc))) ∧
    m.parts = [((if is_html then "html" else "plain"), body)] ∧
    buildRecipients toAddr cc bcc = [toAddr] ++ optList cc ++ optList bcc ∧
    traceOf (execute (some secGood) behOk "a@x.com" "Hi" "hello"
        (some ["b@x.com"]) (some ["c@x.com"]) false) =
      [SmtpAction.connect "smtp.example.com" 587, SmtpAction.starttls,
       SmtpAction.login "user@example.com" "hunter2",
       SmtpAction.sendmail "user@example.com"
         ["a@x.com", "b@x.com", "c@x.com"]
         { headers := [("From", "user@example.com"), ("To", "a@x.com"),
             ("Subject", "Hi"), ("Cc", "b@x.com")],
           parts := [("plain", "hello")] },
       SmtpAction.quit] := by
  unfold execute at h
  rcases hc : get_email_config cfg with e | (- | ec) <;> rw [hc] at h
  · exact Except.noConfusion h
  · rw [Except.ok.injEq, Prod.mk.injEq] at h
    obtain ⟨-, ht⟩ := h
    rw [← ht] at hm
    exact absurd hm (List.not_mem_nil _)
  · rcases hb : beh.buildErr with - | e <;> rw [hb] at h
    · rw [Except.ok.injEq] at h
      have ht : (send_email_async beh ec
          (buildMessage ec toAddr subject body cc is_html)
          (buildRecipients toAddr cc bcc)).2 = tr := by rw [h]
      rw [send_email_async_trace] at ht
      rw [← ht] at hm
      obtain ⟨-, hrl, hmm⟩ := runSend_sendmail_mem _ _ _ _ _ _ _ hm
      refine ⟨?_, ?_, ?_, buildRecipients_eq _ _ _, rfl⟩
      · rw [hrl, buildRecipients_eq]
      · rw [hmm, getHeader_buildMessage_Cc]
      · rw [hmm, buildMessage_parts]
    · exact Except.noConfusion h

/-- Witness for C5: the concrete scenario of the spec. -/
theorem recipients_cc_header_content_type_witness :
    ["a@x.com", "b@x.com", "c@x.com"] =
      [("a@x.com" : String)] ++ optList (some ["b@x.com"]) ++
        optList (some ["c@x.com"]) :=
  (recipients_cc_header_content_type (some secGood) behOk
    "a@x.com" "Hi" "hello" (some ["b@x.com"]) (some ["c@x.com"]) false
    (mkEmailResult "a@x.com" "Hi" true none)
    [SmtpAction.connect "smtp.example.com" 587, SmtpAction.starttls,
     SmtpAction.login "user@example.com" "hunter2",
     SmtpAction.sendmail "user@example.com" ["a@x.com", "b@x.com", "c@x.com"]
       { headers := [("From", "user@example.com"), ("To", "a@x.com"),
           ("Subject", "Hi"), ("Cc", "b@x.com")],
         parts := [("plain", "hello")] },
     SmtpAction.quit]
    "user@example.com" ["a@x.com", "b@x.com", "c@x.com"]
    { headers := [("From", "user@example.com"), ("To", "a@x.com"),
        ("Subject", "Hi"), ("Cc", "b@x.com")],
      parts := [("plain", "hello")] }
    rfl (by decide)).1

theorem runSend_ok (beh : Behavior) (ec : EmailConfig) (msg : Message)
    (recips : List String) (h1 : beh.connectErr = none)
    (h2 : beh.starttlsErr = none) (h3 : beh.loginErr = none)
    (h4 : beh.sendmailErr = none) :
    (runSend beh ec msg recips).1 = Except.ok () := by
  rcases htls : ec.use_tls with - | - <;>
    simp [runSend, h1, htls, h2, h3, h4]

/-- Any result a finished `execute` call returns either has no error or has
a truthy (non-empty) error string, and in the latter case its `output`
field was left unset by `populate_output`. -/
theorem execute_ok_error_output (cfg : Option RawEmailSection)
    (beh : Behavior) (toAddr subject body : String)
    (cc bcc : Option (List String)) (is_html : Bool)
    (r : EmailResult) (tr : List SmtpAction)
    (h : execute cfg beh toAddr subject body cc bcc is_html = Except.ok (r, tr))
    (he : r.error ≠ none) : r.output = none := by
  unfold execute at h
  rcases hc : get_email_config cfg with e | (- | ec) <;> rw [hc] at h
  · exact Except.noConfusion h
  · rw [Except.ok.injEq, Prod.mk.injEq] at h
    obtain ⟨hr, -⟩ := h
    rw [← hr]
    exact mkEmailResult_output_of_truthy_error _ _ _ _ (by decide)
  · rcases hb : beh.buildErr with - | e <;> rw [hb] at h
    · rw [Except.ok.injEq] at h
      have hr : (send_email_async beh ec
          (buildMessage ec toAddr subject body cc is_html)
          (buildRecipients toAddr cc bcc)).1 = r := by rw [h]
      rw [send_email_async_fst] at hr
      cases hs : (runSend beh ec
          (buildMessage ec toAddr subject body cc is_html)
          (buildRecipients toAddr cc bcc)).1 with
      | error e2 =>
        rw [hs] at hr
        rw [← hr]
        exact mkEmailResult_output_of_truthy_error _ _ _ _
          (errTruthy_of_ne_empty _
            (append_left_ne_empty "Error sending email: " e2 (by decide)))
      | ok u =>
        rw [hs] at hr
        rw [← hr] at he
        rw [mkEmailResult_error] at he
        exact absurd rfl he
    · exact Except.noConfusion h

/-- Claim C3: for a resolving configuration and a fully successful transport,
`execute` returns a result with `message_sent = true`, no error, and
`output` equal to the exact success template applied to the call's `to` and
`subject` arguments; and whenever a result returned by `execute` carries an
error, its `output` field is left unset rather than computed from the
template. -/
theorem execute_success_output_template
    (cfg cfg2 : Option RawEmailSection) (beh beh2 : Behavior)
    (ec : EmailConfig) (toAddr subject body t2 s2 b2 : String)
    (cc bcc cc2 bcc2 : Option (List String)) (is_html ih2 : Bool)
    (r2 : EmailResult) (tr2 : List SmtpAction)
    (hc : get_email_config cfg = Except.ok (some ec))
    (hb : beh.buildErr = none) (h1 : beh.connectErr = none)
    (h2 : beh.starttlsErr = none) (h3 : beh.loginErr = none)
    (h4 : beh.sendmailErr = none)
    (h5 : execute cfg2 beh2 t2 s2 b2 cc2 bcc2 ih2 = Except.ok (r2, tr2))
    (h6 : r2.error ≠ none) :
    resultOf (execute cfg beh toAddr subject body cc bcc is_html) =
      Except.ok { recipient := toAddr, subject := subject,
                  message_sent := true, error := none,
                  output := some ("Email to " ++ toAddr ++ " with subject '"
                    ++ subject ++ "' was successfully sent.") } ∧
    r2.output = none := by
  constructor
  · simp only [execute, hc, hb, resultOf, Except.map]
    rw [send_email_async_fst]
    rw [runSend_ok beh ec _ _ h1 h2 h3 h4]
    simp [getHeader_buildMessage_To, getHeader_buildMessage_Subject,
      mkEmailResult, populate_output, errTruthy]
    simp only [String.append_assoc]
    rfl
  · exact execute_ok_error_output cfg2 beh2 t2 s2 b2 cc2 bcc2 ih2 r2 tr2 h5 h6

/-- Witness for C3: the concrete successful call (first conjunct) with a
configuration-failure call supplying the error-carrying result. -/
theorem execute_success_output_template_witness :
    resultOf (execute (some secGood) behOk "a@x.com" "Hi" "hello"
        none none false) =
      Except.ok { recipient := "a@x.com", subject := "Hi",
                  message_sent := true, error := none,
                  output := some
                    "Email to a@x.com with subject 'Hi' was successfully sent." } :=
  (execute_success_output_template (some secGood) none behOk behOk ecGood
    "a@x.com" "Hi" "hello" "x@y.z" "S" "B" none none none none false false
    (mkEmailResult "x@y.z" "S" false
      (some "Email configuration is missing or incomplete in app config."))
    [] rfl rfl rfl rfl rfl rfl rfl (by decide)).1

/-- Does a call outcome return (rather than raise)? -/
def returnsResult : Except String (EmailResult × List SmtpAction) → Bool
  | Except.ok _ => true
  | Except.error _ => false

/-- Counterexample to claim C1 as stated: with a resolving configuration, a
failure raised by the message-construction step between the config check
and the dispatch call (in Python, e.g. `MIMEText` raising on a body with a
lone surrogate) propagates out of `execute` instead of being converted to
an `EmailResult`, because in the source only the dispatch call sits inside
the `try` block. -/
theorem execute_build_failure_escapes :
    execute (some secGood)
      { buildErr := some "UnicodeEncodeError: surrogates not allowed" }
      "a@x.com" "Hi" "hello" none none false =
      Except.error "UnicodeEncodeError: surrogates not allowed" := rfl

/-- Claim C1 (amended): provided configuration resolution does not itself
raise and the message-building and recipient-computation code does not
raise, `execute` always returns an `EmailResult`; whenever the dispatch
step fails with an exception `e`, the returned result has
`message_sent = false` and exactly the non-empty error string
`"Error sending email: " ++ e`, and in general the result is either
success-shaped or failure-shaped with a non-empty error; a failure raised
during message building or recipient-set computation is NOT caught by
`execute` and propagates. -/
theorem execute_total_and_converts_dispatch_failures
    (cfg : Option RawEmailSection) (beh : Behavior)
    (toAddr subject body : String) (cc bcc : Option (List String))
    (is_html : Bool)
    (hcfg : ∀ e, get_email_config cfg ≠ Except.error e)
    (hb : beh.buildErr = none) :
    ∃ r tr, execute cfg beh toAddr subject body cc bcc is_html =
        Except.ok (r, tr) ∧
      (∀ ec e, get_email_config cfg = Except.ok (some ec) →
        (runSend beh ec (buildMessage ec toAddr subject body cc is_html)
          (buildRecipients toAddr cc bcc)).1 = Except.error e →
        r.message_sent = false ∧
          r.error = some ("Error sending email: " ++ e) ∧
          "Error sending email: " ++ e ≠ "") ∧
      (r.message_sent = true ∧ r.error = none ∨
       r.message_sent = false ∧ ∃ s, r.error = some s ∧ s ≠ "") := by
  rcases hc : get_email_config cfg with e | (- | ec)
  · exact absurd hc (hcfg e)
  · refine ⟨mkEmailResult toAddr subject false
      (some "Email configuration is missing or incomplete in app config."),
      [], by simp [execute, hc], ?_,
      Or.inr ⟨mkEmailResult_sent _ _ _ _, _, 
      mkEmailResult_error _ _ _ _, by decide⟩⟩
    intro ec2 e h2 hrs
    exact Option.noConfusion (Except.ok.inj h2)
  · refine ⟨(send_email_async beh ec
        (buildMessage ec toAddr subject body cc is_html)
        (buildRecipients toAddr cc bcc)).1,
      (send_email_async beh ec
        (buildMessage ec toAddr subject body cc is_html)
        (buildRecipients toAddr cc bcc)).2, by simp [execute, hc, hb],
      ?_, ?_⟩
    · intro ec2 e h2 hrs
      rw [Except.ok.injEq, Option.some.injEq] at h2
      subst h2
      rw [send_email_async_fst, hrs]
      exact ⟨mkEmailResult_sent _ _ _ _, mkEmailResult_error _ _ _ _,
        append_left_ne_empty "Error sending email: " e (by decide)⟩
    · rw [send_email_async_fst]
      cases hs : (runSend beh ec
          (buildMessage ec toAddr subject body cc is_html)
          (buildRecipients toAddr cc bcc)).1 with
      | ok u =>
        exact Or.inl ⟨mkEmailResult_sent _ _ _ _, mkEmailResult_error _ _ _ _⟩
      | error e2 =>
        exact Or.inr ⟨mkEmailResult_sent _ _ _ _,
          "Error sending email: " ++ e2, mkEmailResult_error _ _ _ _,
          append_left_ne_empty "Error sending email: " e2 (by decide)⟩

/-- Witness for the amended C1: a connect failure is converted into a
returned result with `message_sent = false` and the exact non-empty
dispatch error string. -/
theorem execute_total_and_converts_dispatch_failures_witness :
    returnsResult (execute (some secGood)
      { connectErr := some "Connection refused" }
      "a@x.com" "Hi" "hello" none none false) = true ∧
    (mkEmailResult "a@x.com" "Hi" false
      (some "Error sending email: Connection refused")).message_sent
      = false ∧
    (mkEmailResult "a@x.com" "Hi" false
      (some "Error sending email: Connection refused")).error =
      some "Error sending email: Connection refused" ∧
    "Error sending email: Connection refused" ≠ "" := by
  obtain ⟨r, tr, h, himp, -⟩ := execute_total_and_converts_dispatch_failures
    (some secGood) { connectErr := some "Connection refused" }
    "a@x.com" "Hi" "hello" none none false
    (by
      intro e he
      rw [show get_email_config (some secGood) = Except.ok (some ecGood)
        from rfl] at he
      exact Except.noConfusion he)
    rfl
  have hr := himp ecGood "Connection refused" rfl rfl
  rw [show execute (some secGood) { connectErr := some "Connection refused" }
      "a@x.com" "Hi" "hello" none none false =
      Except.ok (mkEmailResult "a@x.com" "Hi" false
        (some "Error sending email: Connection refused"),
        [SmtpAction.connect "smtp.example.com" 587]) from rfl,
    Except.ok.injEq, Prod.mk.injEq] at h
  obtain ⟨hre, -⟩ := h
  rw [← hre] at hr
  exact ⟨rfl, hr.1, hr.2.1, hr.2.2⟩

/-- Counterexample to claim C4 as stated: in the call with `to = "a@x.com"`
and non-empty `bcc = ["a@x.com"]`, the bcc address does appear in a header
of the message handed to the transport — it is the To header value — so
"no bcc address appears in any header" fails whenever a bcc address also
occurs as another header source. -/
theorem bcc_address_appears_in_header :
    ("a@x.com" ∈ optList (some ["a@x.com"])) ∧
    sentMessagesOf (execute (some secGood) behOk "a@x.com" "Hi" "hello"
        none (some ["a@x.com"]) false) =
      [{ headers := [("From", "user@example.com"), ("To", "a@x.com"),
           ("Subject", "Hi")],
         parts := [("plain", "hello")] }] ∧
    appearsInAnyHeader "a@x.com"
      { headers := [("From", "user@example.com"), ("To", "a@x.com"),
          ("Subject", "Hi")],
        parts := [("plain", "hello")] } = true := by
  exact ⟨by decide, rfl, by decide⟩

/-- Claim C4 (amended): every `bcc` address is contained in the recipient
list handed to the transport, and the constructed message is independent of
`bcc`: the messages `execute` dispatches are identical to those of the same
call with `bcc` omitted, so no header is ever derived from `bcc` (a bcc
address can appear in a header only by also occurring among the other
header sources: `to`, `cc`, `subject` or the configured username). -/
theorem bcc_in_recipients_headers_independent
    (cfg : Option RawEmailSection) (beh : Behavior)
    (toAddr subject body : String) (cc bcc : Option (List String))
    (is_html : Bool) (a : String) (ha : a ∈ optList bcc) :
    a ∈ buildRecipients toAddr cc bcc ∧
    sentMessagesOf (execute cfg beh toAddr subject body cc bcc is_html) =
      sentMessagesOf (execute cfg beh toAddr subject body cc none is_html) := by
  constructor
  · rw [buildRecipients_eq]
    simp [List.mem_append, ha]
  · rcases hc : get_email_config cfg with e | (- | ec)
    · simp [sentMessagesOf, execute, hc, traceOf]
    · simp [sentMessagesOf, execute, hc, traceOf]
    · rcases hb : beh.buildErr with - | e
      · simp only [sentMessagesOf, execute, hc, hb, traceOf]
        rw [send_email_async_trace, send_email_async_trace]
        exact sentMessages_runSend_recipients _ _ _ _ _
      · simp [sentMessagesOf, execute, hc, hb, traceOf]

/-- Witness for the amended C4: a concrete bcc address reaches the
transport recipient list. -/
theorem bcc_in_recipients_headers_independent_witness :
    "c@x.com" ∈ buildRecipients "a@x.com" (some ["b@x.com"])
      (some ["c@x.com"]) :=
  (bcc_in_recipients_headers_independent (some secGood) behOk "a@x.com" "Hi"
    "hello" (some ["b@x.com"]) (some ["c@x.com"]) false "c@x.com"
    (by decide)).1

/-- Counterexample to claim C6 as stated: a section whose `smtp_server` is
present but of the wrong type (an int where a string is required) makes the
resolver raise a pydantic validation error past its boundary instead of
returning a failure value — the source catches only `AttributeError`. -/
theorem get_email_config_raises_on_wrong_type :
    get_email_config
        (some { secGood with smtp_server := some (PyVal.vInt 5) }) =
      Except.error "validation error for EmailConfig" := rfl

/-- Claim C6 (amended): the resolver returns a failure value (no
`EmailConfig`, without throwing) whenever the configuration section is
entirely absent or any of the four required fields is absent; a field that
is present but of a non-coercible type, however, raises a validation error
past the resolver's boundary. -/
theorem get_email_config_none_on_missing (cfg : Option RawEmailSection)
    (h : cfg = none ∨ ∃ sec, cfg = some sec ∧
      (sec.smtp_server = none ∨ sec.smtp_port = none ∨
       sec.smtp_username = none ∨ sec.smtp_password = none)) :
    get_email_config cfg = Except.ok none := by
  rcases h with rfl | ⟨sec, rfl, hf⟩
  · rfl
  · rcases sec with ⟨sv, pv, uv, wv, tv⟩
    rcases hf with h | h | h | h <;> subst h
    · rcases pv with - | b <;> rcases uv with - | c <;>
        rcases wv with - | d <;> rfl
    · rcases sv with - | b <;> rcases uv with - | c <;>
        rcases wv with - | d <;> rfl
    · rcases sv with - | b <;> rcases pv with - | c <;>
        rcases wv with - | d <;> rfl
    · rcases sv with - | b <;> rcases pv with - | c <;>
        rcases uv with - | d <;> rfl

/-- Witness for the amended C6: a section lacking `smtp_password`. -/
theorem get_email_config_none_on_missing_witness :
    get_email_config (some { secGood with smtp_password := none }) =
      Except.ok none :=
  get_email_config_none_on_missing _
    (Or.inr ⟨{ secGood with smtp_password := none }, rfl,
      Or.inr (Or.inr (Or.inr rfl))⟩)

theorem send_email_async_fst_ignores_password (beh : Behavior)
    (s : String) (p : Int) (u w1 w2 : String) (t : Bool)
    (msg : Message) (recips : List String) :
    (send_email_async beh ⟨s, p, u, w1, t⟩ msg recips).1 =
      (send_email_async beh ⟨s, p, u, w2, t⟩ msg recips).1 := by
  rw [send_email_async_fst, send_email_async_fst]
  have hrs : (runSend beh ⟨s, p, u, w1, t⟩ msg recips).1 =
      (runSend beh ⟨s, p, u, w2, t⟩ msg recips).1 := by
    rcases h1 : beh.connectErr with - | e1 <;>
    cases t <;>
    rcases h2 : beh.starttlsErr with - | e2 <;>
    rcases h3 : beh.loginErr with - | e3 <;>
    rcases h4 : beh.sendmailErr with - | e4 <;>
      simp [runSend, h1, h2, h3, h4]
  rw [hrs]

/-- Claim C7: the result `execute` returns does not depend on the value of
`smtp_password` except through the transport's behaviour: with the
transport behaviour fixed, two runs identical except for the password
produce exactly the same `EmailResult` (hence equal error strings and
outputs, into which the password is never interpolated). -/
theorem execute_result_password_noninterference
    (sec : RawEmailSection) (beh : Behavior) (p1 p2 : String)
    (toAddr subject body : String) (cc bcc : Option (List String))
    (is_html : Bool) :
    resultOf (execute
        (some { sec with smtp_password := some (PyVal.vStr p1) })
        beh toAddr subject body cc bcc is_html) =
      resultOf (execute
        (some { sec with smtp_password := some (PyVal.vStr p2) })
        beh toAddr subject body cc bcc is_html) := by
  rcases sec with ⟨sv, pv, uv, wv, tv⟩
  rcases sv with - | v1
  · rfl
  · rcases pv with - | v2
    · rfl
    · rcases uv with - | v3
      · rfl
      · cases h1 : validateStr v1 with
        | error e1 => simp [execute, get_email_config, h1, resultOf]
        | ok s1 =>
          cases h2 : validateInt v2 with
          | error e2 => simp [execute, get_email_config, h1, h2, resultOf]
          | ok n2 =>
            cases h3 : validateStr v3 with
            | error e3 => simp [execute, get_email_config, h1, h2, h3, resultOf]
            | ok s3 =>
              cases h4 : validateBool (tv.getD (PyVal.vBool true)) with
              | error e4 =>
                simp [execute, get_email_config, h1, h2, h3, h4, resultOf]
              | ok b4 =>
                rcases hb : beh.buildErr with - | e
                · simp only [execute, get_email_config, h1, h2, h3, h4, hb,
                    resultOf, Except.map]
                  exact congrArg Except.ok
                    (send_email_async_fst_ignores_password beh s1 n2 s3
                      p1 p2 b4 _ _)
                · simp only [execute, get_email_config, h1, h2, h3, h4,
                    hb, resultOf]
                  rfl

/-- Claim C8: in every transport execution with `use_tls = true`, the
STARTTLS attempt occurs strictly before any login and login strictly
before any message transmission; login and sendmail never occur in a trace
with no STARTTLS attempt, and each occurs at most once. -/
theorem send_tls_before_login_before_sendmail
    (beh : Behavior) (ec : EmailConfig) (msg : Message)
    (recipients : List String) (htls : ec.use_tls = true) :
    (∀ i, firstIdx isLoginA ((runSend beh ec msg recipients).2) = some i →
      ∃ j, firstIdx isStarttlsA ((runSend beh ec msg recipients).2) = some j ∧
        j < i) ∧
    (∀ i, firstIdx isSendmailA ((runSend beh ec msg recipients).2) = some i →
      ∃ j, firstIdx isLoginA ((runSend beh ec msg recipients).2) = some j ∧
        j < i) ∧
    (firstIdx isStarttlsA ((runSend beh ec msg recipients).2) = none →
      firstIdx isLoginA ((runSend beh ec msg recipients).2) = none ∧
      firstIdx isSendmailA ((runSend beh ec msg recipients).2) = none) ∧
    ((runSend beh ec msg recipients).2.countP isLoginA ≤ 1 ∧
     (runSend beh ec msg recipients).2.countP isSendmailA ≤ 1) := by
  rcases h1 : beh.connectErr with - | e1 <;>
  rcases h2 : beh.starttlsErr with - | e2 <;>
  rcases h3 : beh.loginErr with - | e3 <;>
  rcases h4 : beh.sendmailErr with - | e4 <;>
    simp [runSend, h1, htls, h2, h3, h4, firstIdx, isLoginA, isStarttlsA,
      isSendmailA, List.countP_cons, List.countP_nil]

/-- Witness for C8: the all-success TLS run. -/
theorem send_tls_before_login_before_sendmail_witness :
    (runSend behOk ecGood
        { headers := [("To", "a@x.com")], parts := [] }
        ["a@x.com"]).2.countP isLoginA ≤ 1 ∧
    (runSend behOk ecGood
        { headers := [("To", "a@x.com")], parts := [] }
        ["a@x.com"]).2.countP isSendmailA ≤ 1 :=
  (send_tls_before_login_before_sendmail behOk ecGood
    { headers := [("To", "a@x.com")], parts := [] } ["a@x.com"] rfl).2.2.2
